import Mathlib

/-!
Shallow embedding of `trimesh/primitives.py` (lazy parametric primitives:
Cylinder, Sphere, Box, Extrusion) and proofs of the specification claims.

Numeric values (numpy float64 scalars, vectors, matrices) are modelled over
`ℚ`; numpy arrays whose shape matters are modelled by the `NpVal` type so the
runtime shape checks (`util.is_shape`, `np.shape`) can be expressed.  Python
exceptions are modelled by `Except PyError`.
-/

namespace Trimesh

/-- A 3-vector, as `numpy` shape `(3,)` with known shape. -/
abbrev Vec3 := Fin 3 → ℚ

/-- A 4×4 matrix, as `numpy` shape `(4,4)` with known shape. -/
abbrev Mat4 := Fin 4 → Fin 4 → ℚ

/-- The identity `np.eye(4)`. -/
def eye4 : Mat4 := fun i j => if i = j then 1 else 0

/-- The identity `np.eye(3)` restricted view is not needed; `ones3` is
`np.ones(3)`. -/
def ones3 : Vec3 := fun _ => 1

/-- A dynamically shaped numpy value as stored in the primitive data store:
either a 1-d array or a 2-d array of rationals. -/
inductive NpVal : Type
  | vec (v : List ℚ)
  | mat (m : List (List ℚ))
deriving DecidableEq

/-- Python exceptions raised by this module.  The source raises only
`ValueError`; `NotImplementedError` is included so claims about the error
class can be stated. -/
inductive PyError : Type
  | valueError (msg : String)
  | notImplementedError (msg : String)
deriving DecidableEq

/-- `util.is_shape(stored, (3,))` on a data-store slot: `None` (absent) has no
shape; a 1-d array matches iff its length is 3. -/
def isShape3 : Option NpVal → Bool
  | some (.vec v) => v.length == 3
  | _ => false

/-- Shape test for a `(4,4)` 2-d array. -/
def shape44 (m : List (List ℚ)) : Bool :=
  m.length == 4 && m.all (fun row => row.length == 4)

/-- `util.is_shape(stored, (4,4))` / `np.shape(stored) == (4,4)` on a
data-store slot. -/
def isShape44 : Option NpVal → Bool
  | some (.mat m) => shape44 m
  | _ => false

/-- Decode a 1-d array of length 3 into a `Vec3` (out-of-range reads default
to 0; they never occur when the shape check has passed). -/
def decodeVec3 (v : List ℚ) : Vec3 := fun i => v.getD i.val 0

/-- Decode a `(4,4)` 2-d array into a `Mat4`. -/
def decodeMat4 (m : List (List ℚ)) : Mat4 := fun i j => (m.getD i.val []).getD j.val 0

/-- Encode a `Mat4` back into the row-major 2-d array the data store holds. -/
def mat4ToLists (M : Mat4) : List (List ℚ) :=
  [[M 0 0, M 0 1, M 0 2, M 0 3],
   [M 1 0, M 1 1, M 1 2, M 1 3],
   [M 2 0, M 2 1, M 2 2, M 2 3],
   [M 3 0, M 3 1, M 3 2, M 3 3]]

/-- 4×4 matrix product, `np.dot` on two `(4,4)` arrays. -/
def mul4 (A B : Mat4) : Mat4 := fun i j =>
  A i 0 * B 0 j + A i 1 * B 1 j + A i 2 * B 2 j + A i 3 * B 3 j

theorem shape44_mat4ToLists (M : Mat4) : shape44 (mat4ToLists M) = true := by
  simp [shape44, mat4ToLists]

theorem decodeMat4_mat4ToLists (M : Mat4) : decodeMat4 (mat4ToLists M) = M := by
  funext i j
  fin_cases i <;> fin_cases j <;> rfl

theorem mul4_eye4 (A : Mat4) : mul4 eye4 A = A := by
  funext i j
  fin_cases i <;> fin_cases j <;> simp [mul4, eye4]

/-! ## `_Primitive._create_mesh` (the abstract synthesis extension point)

```python
def _create_mesh(self):
    raise ValueError('Primitive doesn\'t define mesh creation!')
```
-/

/-- Body of the base-class `_Primitive._create_mesh`: unconditionally raises. -/
def primitiveBaseCreateMesh : Except PyError Unit :=
  .error (.valueError "Primitive doesn\x27t define mesh creation!")

/-- Whether a result failed with a `NotImplementedError`-class exception. -/
def isNotImplementedClass : Except PyError Unit → Bool
  | .error (.notImplementedError _) => true
  | _ => false

/-! ## `_Primitive` lazy cache

The three derived-geometry slots of `self._cache`.  A slot holds `none` when
the cache does not contain the key (the `trimesh` cache returns `None`, which
fails the `util.is_shape(stored, (-1,3))` test) and `some a` when it holds the
`(n,3)` array written by `_create_mesh`. -/

structure PrimCache (V F N : Type) where
  vertices : Option V
  faces : Option F
  face_normals : Option N
deriving DecidableEq

/-- A primitive: its parametric data plus the derived-geometry cache. -/
structure PrimState (D V F N : Type) where
  data : D
  cache : PrimCache V F N
deriving DecidableEq

/-- The `_create_mesh` body of a concrete primitive, as a function of the
parametric data: it may raise (Extrusion) or return the three arrays that the
overriding `_create_mesh` writes into the cache in one step. -/
abbrev Synth (D V F N : Type) := D → Except PyError (V × F × N)

/-- `_Primitive.faces` (read): return the cached array if present, otherwise
run `_create_mesh` (which fills all three slots) and return the fresh slot. -/
def facesGet {D V F N : Type} (synth : Synth D V F N) (p : PrimState D V F N) :
    Except PyError F × PrimState D V F N :=
  match p.cache.faces with
  | some stored => (.ok stored, p)
  | none =>
    match synth p.data with
    | .error e => (.error e, p)
    | .ok (v, f, n) => (.ok f, { p with cache := ⟨some v, some f, some n⟩ })

/-- `_Primitive.vertices` (read). -/
def verticesGet {D V F N : Type} (synth : Synth D V F N) (p : PrimState D V F N) :
    Except PyError V × PrimState D V F N :=
  match p.cache.vertices with
  | some stored => (.ok stored, p)
  | none =>
    match synth p.data with
    | .error e => (.error e, p)
    | .ok (v, f, n) => (.ok v, { p with cache := ⟨some v, some f, some n⟩ })

/-- `_Primitive.face_normals` (read). -/
def faceNormalsGet {D V F N : Type} (synth : Synth D V F N) (p : PrimState D V F N) :
    Except PyError N × PrimState D V F N :=
  match p.cache.face_normals with
  | some stored => (.ok stored, p)
  | none =>
    match synth p.data with
    | .error e => (.error e, p)
    | .ok (v, f, n) => (.ok n, { p with cache := ⟨some v, some f, some n⟩ })

/-- `_Primitive.faces` (write): logs a warning unconditionally, never stores.
The returned `Bool` records whether the diagnostic was emitted. -/
def facesSet {D V F N : Type} (p : PrimState D V F N) (values : Option F) :
    PrimState D V F N × Bool :=
  (p, true)

/-- `_Primitive.vertices` (write): warns only when `values is not None`,
never stores. -/
def verticesSet {D V F N : Type} (p : PrimState D V F N) (values : Option V) :
    PrimState D V F N × Bool :=
  (p, values.isSome)

/-- `_Primitive.face_normals` (write): warns only when `values is not None`,
never stores. -/
def faceNormalsSet {D V F N : Type} (p : PrimState D V F N) (values : Option N) :
    PrimState D V F N × Bool :=
  (p, values.isSome)

/-- Concrete synthesis function used to instantiate the generic cache
theorems. -/
def natSynth : Synth ℕ ℕ ℕ ℕ := fun d => .ok (d + 1, d + 2, d + 3)

/-- A concrete primitive state with an empty cache. -/
def natPrim : PrimState ℕ ℕ ℕ ℕ := ⟨0, ⟨none, none, none⟩⟩

/-- C2: reading `faces` (likewise `vertices`, `face_normals`) twice with no
intervening setter returns the same result and leaves the state unchanged:
the first read on a cache miss runs the synthesis routine, which fills all
three cache slots at once, and the second read is served from the cache. -/
theorem prim_cache_idempotent {D V F N : Type} (synth : Synth D V F N)
    (p : PrimState D V F N) :
    facesGet synth (facesGet synth p).2 = facesGet synth p ∧
    verticesGet synth (verticesGet synth p).2 = verticesGet synth p ∧
    faceNormalsGet synth (faceNormalsGet synth p).2 = faceNormalsGet synth p ∧
    (p.cache.faces = none → ∀ v f n, synth p.data = .ok (v, f, n) →
      (facesGet synth p).1 = .ok f ∧
      (facesGet synth p).2 = { p with cache := ⟨some v, some f, some n⟩ }) := by
  refine ⟨?_, ?_, ?_, ?_⟩
  · rcases hf : p.cache.faces with _ | stored
    · rcases hs : synth p.data with e | ⟨v, f, n⟩ <;>
        simp [facesGet, hf, hs]
    · simp [facesGet, hf]
  · rcases hv : p.cache.vertices with _ | stored
    · rcases hs : synth p.data with e | ⟨v, f, n⟩ <;>
        simp [verticesGet, hv, hs]
    · simp [verticesGet, hv]
  · rcases hn : p.cache.face_normals with _ | stored
    · rcases hs : synth p.data with e | ⟨v, f, n⟩ <;>
        simp [faceNormalsGet, hn, hs]
    · simp [faceNormalsGet, hn]
  · intro hf v f n hs
    simp [facesGet, hf, hs]

/-- Witness for C2: a cache miss on a concrete primitive returns the
synthesized faces and populates all three cache slots. -/
theorem prim_cache_idempotent_witness :
    (facesGet natSynth natPrim).1 = .ok 2 ∧
    (facesGet natSynth natPrim).2 =
      { natPrim with cache := ⟨some 1, some 2, some 3⟩ } :=
  (prim_cache_idempotent natSynth natPrim).2.2.2 rfl 1 2 3 rfl

/-- C3 counterexample: assigning `None` to `vertices` is accepted and has no
effect, but emits no diagnostic warning (the source guards the warning with
`if values is not None`), refuting "emits a diagnostic warning" for every
assigned value. -/
theorem prim_setter_warning_counterexample :
    (verticesSet natPrim none).2 = false ∧ (verticesSet natPrim none).1 = natPrim :=
  ⟨rfl, rfl⟩

/-- C3 (amended): assigning any value to `vertices`, `faces` or
`face_normals` is accepted without raising and has no effect on the state
(hence subsequent reads are unchanged); a diagnostic warning is emitted on
every assignment to `faces`, and on assignments to `vertices` /
`face_normals` exactly when the assigned value is not `None`. -/
theorem prim_setters_noop {D V F N : Type} (p : PrimState D V F N)
    (v : Option V) (f : Option F) (n : Option N) (synth : Synth D V F N) :
    facesSet p f = (p, true) ∧
    verticesSet p v = (p, v.isSome) ∧
    faceNormalsSet p n = (p, n.isSome) ∧
    facesGet synth (verticesSet p v).1 = facesGet synth p ∧
    verticesGet synth (verticesSet p v).1 = verticesGet synth p ∧
    facesGet synth (facesSet p f).1 = facesGet synth p ∧
    faceNormalsGet synth (faceNormalsSet p n).1 = faceNormalsGet synth p :=
  ⟨rfl, rfl, rfl, rfl, rfl, rfl, rfl⟩

/-! ## `_PrimitiveAttributes`

Python dictionaries are modelled as `String → Option A`; the Python instance
`__dict__` reached through `super().__setattr__` and the backing `_data`
dictionary are the two fields of `AttrStore`. -/

/-- `d[k] = v` on a Python dictionary. -/
def dictSet {A : Type} (m : String → Option A) (k : String) (v : A) :
    String → Option A :=
  fun q => if q = k then some v else m q

/-- The state written by `_PrimitiveAttributes.__setattr__`: the instance
dictionary (for keys containing an underscore) and the `_data` store. -/
structure AttrStore (A : Type) where
  instanceDict : String → Option A
  data : String → Option A

/-- `self._data.update(defaults)`: write every schema default into the data
dictionary, first entry first. -/
def applyDefaults {A : Type} (l : List (String × A)) (m : String → Option A) :
    String → Option A :=
  match l with
  | [] => m
  | kv :: rest => applyDefaults rest (dictSet m kv.1 kv.2)

/-- The `__init__` loop over `kwargs.items()`: keys present in the schema are
stored coerced by `util.convert_like(value, defaults[key])`; other keys are
skipped. -/
def overlayKwargs {A : Type} (convertLike : A → A → A) (defaults : List (String × A))
    (m : String → Option A) (kwargs : List (String × A)) : String → Option A :=
  match kwargs with
  | [] => m
  | kv :: rest =>
    match defaults.lookup kv.1 with
    | some dflt =>
      overlayKwargs convertLike defaults (dictSet m kv.1 (convertLike kv.2 dflt)) rest
    | none => overlayKwargs convertLike defaults m rest

/-- `_PrimitiveAttributes.__init__`: defaults first, then matching keyword
arguments overlaid. -/
def attributesInit {A : Type} (convertLike : A → A → A) (defaults : List (String × A))
    (data0 : String → Option A) (kwargs : List (String × A)) : String → Option A :=
  overlayKwargs convertLike defaults (applyDefaults defaults data0) kwargs

/-- `_PrimitiveAttributes.__setattr__`: keys containing an underscore go to
`super().__setattr__` (plain instance attribute); schema keys go to `_data`;
anything else raises `ValueError`. -/
def attributesSetattr {A : Type} (defaults : List (String × A)) (s : AttrStore A)
    (key : String) (value : A) : Except PyError (AttrStore A) :=
  if '_' ∈ key.data then
    .ok { s with instanceDict := dictSet s.instanceDict key value }
  else if (defaults.lookup key).isSome then
    .ok { s with data := dictSet s.data key value }
  else
    .error (.valueError "Only default attributes can be set!")

theorem applyDefaults_not_mem {A : Type} (l : List (String × A))
    (m : String → Option A) (k : String) (h : ∀ p ∈ l, p.1 ≠ k) :
    applyDefaults l m k = m k := by
  induction l generalizing m with
  | nil => rfl
  | cons kv rest ih =>
    have hhead : ¬(k = kv.1) := fun hk => h kv (List.mem_cons_self kv rest) hk.symm
    simp only [applyDefaults]
    rw [ih _ (fun p hp => h p (List.mem_cons_of_mem kv hp))]
    simp only [dictSet, if_neg hhead]

theorem applyDefaults_lookup {A : Type} (l : List (String × A))
    (m : String → Option A) (k : String) (v : A)
    (hnd : (l.map Prod.fst).Nodup) (h : (k, v) ∈ l) :
    applyDefaults l m k = some v := by
  induction l generalizing m with
  | nil => exact absurd h (List.not_mem_nil _)
  | cons kv rest ih =>
    rw [List.map_cons] at hnd
    have hnd' := List.nodup_cons.mp hnd
    rcases List.mem_cons.mp h with heq | hmem
    · subst heq
      simp only [applyDefaults]
      rw [applyDefaults_not_mem]
      · simp [dictSet]
      · intro p hp hpk
        have hm := List.mem_map_of_mem Prod.fst hp
        rw [hpk] at hm
        exact hnd'.1 hm
    · simp only [applyDefaults]
      exact ih _ hnd'.2 hmem

theorem overlayKwargs_not_mem {A : Type} (c : A → A → A)
    (defaults : List (String × A)) (m : String → Option A)
    (kwargs : List (String × A)) (k : String) (h : ∀ p ∈ kwargs, p.1 ≠ k) :
    overlayKwargs c defaults m kwargs k = m k := by
  induction kwargs generalizing m with
  | nil => rfl
  | cons kv rest ih =>
    have hrest := fun p hp => h p (List.mem_cons_of_mem kv hp)
    have hhead : ¬(k = kv.1) := fun hk => h kv (List.mem_cons_self kv rest) hk.symm
    rcases hl : defaults.lookup kv.1 with _ | dflt <;>
      simp only [overlayKwargs, hl]
    · exact ih _ hrest
    · rw [ih _ hrest]
      simp only [dictSet, if_neg hhead]

theorem overlayKwargs_not_schema {A : Type} (c : A → A → A)
    (defaults : List (String × A)) (m : String → Option A)
    (kwargs : List (String × A)) (k : String) (h : defaults.lookup k = none) :
    overlayKwargs c defaults m kwargs k = m k := by
  induction kwargs generalizing m with
  | nil => rfl
  | cons kv rest ih =>
    rcases hl : defaults.lookup kv.1 with _ | dflt <;>
      simp only [overlayKwargs, hl]
    · exact ih m
    · rw [ih]
      refine if_neg fun hk => ?_
      rw [hk, hl] at h
      exact Option.noConfusion h

theorem overlayKwargs_mem {A : Type} (c : A → A → A)
    (defaults : List (String × A)) (m : String → Option A)
    (kwargs : List (String × A)) (k : String) (v dflt : A)
    (hnd : (kwargs.map Prod.fst).Nodup) (hmem : (k, v) ∈ kwargs)
    (hdflt : defaults.lookup k = some dflt) :
    overlayKwargs c defaults m kwargs k = some (c v dflt) := by
  induction kwargs generalizing m with
  | nil => exact absurd hmem (List.not_mem_nil _)
  | cons kv rest ih =>
    rw [List.map_cons] at hnd
    have hnd' := List.nodup_cons.mp hnd
    rcases List.mem_cons.mp hmem with heq | hmem'
    · subst heq
      simp only [overlayKwargs, hdflt]
      rw [overlayKwargs_not_mem]
      · simp [dictSet]
      · intro p hp hpk
        have hm := List.mem_map_of_mem Prod.fst hp
        rw [hpk] at hm
        exact hnd'.1 hm
    · rcases hl : defaults.lookup kv.1 with _ | d <;>
        simp only [overlayKwargs, hl] <;>
        exact ih _ hnd'.2 hmem'

theorem mem_of_lookup_eq_some {A : Type} {l : List (String × A)} {k : String}
    {v : A} (h : l.lookup k = some v) : (k, v) ∈ l := by
  induction l with
  | nil => exact Option.noConfusion h
  | cons kv rest ih =>
    obtain ⟨q, w⟩ := kv
    by_cases hk : k = q
    · subst hk
      simp only [List.lookup, beq_self_eq_true, Option.some.injEq] at h
      subst h
      exact List.mem_cons_self _ _
    · simp only [List.lookup, beq_false_of_ne hk] at h
      exact List.mem_cons_of_mem _ (ih h)

theorem lookup_none_not_mem {A : Type} {l : List (String × A)} {k : String}
    (h : l.lookup k = none) {p : String × A} (hp : p ∈ l)
    (hpk : p.1 = k) : False := by
  induction l with
  | nil => exact absurd hp (List.not_mem_nil _)
  | cons kv rest ih =>
    obtain ⟨q, w⟩ := kv
    by_cases hk : k = q
    · subst hk
      simp only [List.lookup, beq_self_eq_true] at h
      exact Option.noConfusion h
    · simp only [List.lookup, beq_false_of_ne hk] at h
      rcases List.mem_cons.mp hp with heq | hmem
      · apply hk
        rw [← hpk, heq]
      · exact ih h hmem

/-- Schema used to instantiate the attribute-store theorems concretely
(shaped like the Cylinder defaults, values over `ℕ` for decidability). -/
def exampleDefaults : List (String × ℕ) := [("radius", 1), ("height", 2)]

/-- A concrete empty attribute store. -/
def exampleStore : AttrStore ℕ := ⟨fun _ => none, fun _ => none⟩

/-- C4 counterexample: `"a_b"` is not a schema key, yet
`__setattr__("a_b", 5)` succeeds (the underscore branch routes it to
`super().__setattr__`), refuting "writing a non-schema key fails with an
error" for every non-schema key. -/
theorem attributes_setattr_counterexample :
    exampleDefaults.lookup "a_b" = none ∧
    (attributesSetattr exampleDefaults exampleStore "a_b" 5).isOk = true :=
  ⟨by decide, by decide⟩

/-- C4 (amended): writing a key that is neither a schema key nor contains an
underscore fails with an error; a key containing an underscore bypasses the
schema check and is stored as a plain instance attribute without error.  At
construction, defaults are applied first; keyword arguments not in the schema
are silently ignored, and schema keyword arguments overwrite the defaults
(coerced by `util.convert_like` against the default). -/
theorem attributes_store_contract {A : Type} (defaults kwargs : List (String × A))
    (s : AttrStore A) (convertLike : A → A → A) (data0 : String → Option A)
    (key : String) (value : A) (dflt : A) :
    ('_' ∉ key.data → defaults.lookup key = none →
      attributesSetattr defaults s key value =
        .error (.valueError "Only default attributes can be set!")) ∧
    ('_' ∈ key.data →
      attributesSetattr defaults s key value =
        .ok { s with instanceDict := dictSet s.instanceDict key value }) ∧
    (defaults.lookup key = none →
      attributesInit convertLike defaults data0 kwargs key = data0 key) ∧
    ((defaults.map Prod.fst).Nodup → defaults.lookup key = some dflt →
      (∀ p ∈ kwargs, p.1 ≠ key) →
      attributesInit convertLike defaults data0 kwargs key = some dflt) ∧
    ((kwargs.map Prod.fst).Nodup → defaults.lookup key = some dflt →
      (key, value) ∈ kwargs →
      attributesInit convertLike defaults data0 kwargs key =
        some (convertLike value dflt)) := by
  refine ⟨?_, ?_, ?_, ?_, ?_⟩
  · intro hu hns
    rw [attributesSetattr, if_neg hu, if_neg (by simp [hns])]
  · intro hu
    rw [attributesSetattr, if_pos hu]
  · intro hns
    rw [attributesInit, overlayKwargs_not_schema _ _ _ _ _ hns,
      applyDefaults_not_mem]
    intro p hp hpk
    exact lookup_none_not_mem hns hp hpk
  · intro hnd hdflt hnotin
    rw [attributesInit, overlayKwargs_not_mem _ _ _ _ _ hnotin,
      applyDefaults_lookup _ _ _ dflt hnd (mem_of_lookup_eq_some hdflt)]
  · intro hnd hdflt hmem
    rw [attributesInit, overlayKwargs_mem _ _ _ _ _ _ _ hnd hmem hdflt]

/-- Witness for C4: on the concrete Cylinder-like schema, setting the
non-schema key `"color"` errors, setting the underscore key `"_data"`
succeeds, and construction with `kwargs = [("radius", 7), ("junk", 9)]`
yields radius 7 (overwritten), height 2 (default), and no `"junk"` entry. -/
theorem attributes_store_contract_witness :
    attributesSetattr exampleDefaults exampleStore "color" 5 =
      .error (.valueError "Only default attributes can be set!") ∧
    attributesSetattr exampleDefaults exampleStore "_data" 5 =
      .ok { exampleStore with
            instanceDict := dictSet exampleStore.instanceDict "_data" 5 } ∧
    attributesInit (fun v _ => v) exampleDefaults (fun _ => none)
      [("radius", 7), ("junk", 9)] "junk" = none ∧
    attributesInit (fun v _ => v) exampleDefaults (fun _ => none)
      [("radius", 7), ("junk", 9)] "height" = some 2 ∧
    attributesInit (fun v _ => v) exampleDefaults (fun _ => none)
      [("radius", 7), ("junk", 9)] "radius" = some 7 := by
  refine ⟨?_, ?_, ?_, ?_, ?_⟩
  · exact (attributes_store_contract exampleDefaults [] exampleStore
      (fun v _ => v) (fun _ => none) "color" 5 0).1 (by decide) (by decide)
  · exact (attributes_store_contract exampleDefaults [] exampleStore
      (fun v _ => v) (fun _ => none) "_data" 5 0).2.1 (by decide)
  · exact (attributes_store_contract exampleDefaults [("radius", 7), ("junk", 9)]
      exampleStore (fun v _ => v) (fun _ => none) "junk" 9 0).2.2.1 (by decide)
  · exact (attributes_store_contract exampleDefaults [("radius", 7), ("junk", 9)]
      exampleStore (fun v _ => v) (fun _ => none) "height" 0 2).2.2.2.1
      (by decide) (by decide) (by decide)
  · exact (attributes_store_contract exampleDefaults [("radius", 7), ("junk", 9)]
      exampleStore (fun v _ => v) (fun _ => none) "radius" 7 1).2.2.2.2
      (by decide) (by decide) (by decide)

/-- C8 counterexample: the un-overridden `_create_mesh` does fail, but by
raising a `ValueError`, which is not a `NotImplementedError`-class error. -/
theorem base_create_mesh_counterexample :
    primitiveBaseCreateMesh.isOk = false ∧
    isNotImplementedClass primitiveBaseCreateMesh = false :=
  ⟨rfl, rfl⟩

/-- C8 (amended): invoking the abstract synthesis operation on a primitive
that has not overridden it fails unconditionally, with a `ValueError`
reporting that the primitive does not define mesh creation (not with a
`NotImplementedError`-class error). -/
theorem base_create_mesh_raises :
    primitiveBaseCreateMesh =
      .error (.valueError "Primitive doesn\x27t define mesh creation!") :=
  rfl

/-! ## `Sphere` -/

/-- The Sphere parameter slots of `self._data` (`radius` is stored as a
length-1 float array by the data store, modelled as an optional scalar). -/
structure SphereData where
  radius : Option ℚ
  center : Option Vec3

/-- `Sphere.sphere_radius` (read): `1.0` when the slot holds `None`,
otherwise `stored[0]`. -/
def sphereRadiusGet (d : SphereData) : ℚ :=
  match d.radius with
  | none => 1
  | some stored => stored

/-- `Sphere.sphere_radius` (write): `self._data['radius'] = float(value)`. -/
def sphereRadiusSet (d : SphereData) (value : ℚ) : SphereData :=
  { d with radius := some value }

/-- `Sphere.volume`: `(4.0*np.pi*(self.sphere_radius**3))/3.0`.  The float
constant `np.pi` is abstracted as a parameter.  `util.cache_decorator` is
modelled from the spec: it keys the cached value to the data store and
recomputes after any attribute write, so a read is a pure function of the
current data. -/
def sphereVolume (pi : ℚ) (d : SphereData) : ℚ :=
  4 * pi * sphereRadiusGet d ^ 3 / 3

/-- C6: `Sphere.volume` equals `4/3 · π · radius³` for the current value of
`sphere_radius`, and a read after the setter runs reflects the new radius:
radius 2 gives `(4/3)·π·8`, then radius 3 gives `(4/3)·π·27`. -/
theorem sphere_volume_correct (pi : ℚ) (d : SphereData) (r : ℚ) :
    sphereVolume pi d = 4 / 3 * pi * sphereRadiusGet d ^ 3 ∧
    sphereVolume pi (sphereRadiusSet d r) = 4 / 3 * pi * r ^ 3 ∧
    sphereVolume pi (sphereRadiusSet d 2) = 4 / 3 * pi * 8 ∧
    sphereVolume pi (sphereRadiusSet (sphereRadiusSet d 2) 3) =
      4 / 3 * pi * 27 := by
  refine ⟨?_, ?_, ?_, ?_⟩ <;>
    simp [sphereVolume, sphereRadiusSet, sphereRadiusGet] <;> ring

/-! ## `Box` -/

/-- The Box parameter slots of `self._data`. -/
structure BoxData where
  box_extents : Option NpVal
  box_transform : Option NpVal
deriving DecidableEq

/-- `Box.box_extents` (read): the stored array when it has shape `(3,)`,
otherwise `np.ones(3)`. -/
def boxExtentsGet (d : BoxData) : Vec3 :=
  match d.box_extents with
  | some (.vec v) => if v.length = 3 then decodeVec3 v else ones3
  | _ => ones3

/-- `Box.box_extents` (write): stores `np.asanyarray(values)` unvalidated. -/
def boxExtentsSet (d : BoxData) (values : NpVal) : BoxData :=
  { d with box_extents := some values }

/-- `Box.box_transform` (read): the stored array when it has shape `(4,4)`,
otherwise `np.eye(4)`. -/
def boxTransformGet (d : BoxData) : Mat4 :=
  match d.box_transform with
  | some (.mat m) => if shape44 m then decodeMat4 m else eye4
  | _ => eye4

/-- `Box.box_transform` (write): raises unless the value is `(4,4)`. -/
def boxTransformSet (d : BoxData) (matrix : NpVal) : Except PyError BoxData :=
  match matrix with
  | .mat m =>
    if shape44 m then .ok { d with box_transform := some (.mat m) }
    else .error (.valueError "Matrix must be (4,4)!")
  | .vec _ => .error (.valueError "Matrix must be (4,4)!")

/-- `Box.volume`: `float(np.product(self.box_extents))`; cached through
`util.cache_decorator` exactly as `Sphere.volume`. -/
def boxVolume (d : BoxData) : ℚ :=
  boxExtentsGet d 0 * boxExtentsGet d 1 * boxExtentsGet d 2

/-- `Box.__init__`: keyword arguments are applied through the property
setters (the transform setter may raise). -/
def boxInit (box_extents box_transform : Option NpVal) :
    Except PyError BoxData :=
  let d0 : BoxData := ⟨none, none⟩
  let d1 := match box_extents with
            | some e => boxExtentsSet d0 e
            | none => d0
  match box_transform with
  | some t => boxTransformSet d1 t
  | none => .ok d1

/-- C9: `Box.volume` is the product of the three `box_extents` components:
`Box(box_extents=(2,3,4)).volume == 24`, and after the extents setter runs
the next read gives the new product. -/
theorem box_volume_correct (d : BoxData) (a b c : ℚ) :
    boxVolume (boxExtentsSet d (.vec [a, b, c])) = a * b * c ∧
    boxInit (some (.vec [2, 3, 4])) none = .ok ⟨some (.vec [2, 3, 4]), none⟩ ∧
    boxVolume ⟨some (.vec [2, 3, 4]), none⟩ = 24 ∧
    boxVolume (boxExtentsSet (boxExtentsSet d (.vec [2, 3, 4])) (.vec [5, 6, 7])) =
      210 := by
  refine ⟨?_, rfl, ?_, ?_⟩ <;>
    simp [boxVolume, boxInit, boxExtentsSet, boxExtentsGet, decodeVec3,
      List.getD] <;> norm_num

/-! ## `Extrusion` -/

/-- Modelled from the spec: a validated 2D closed-curve descriptor
(`shapely.geometry.Polygon`); only its presence in the data store matters to
the claims. -/
structure Polygon where
  exterior : List (ℚ × ℚ)
deriving DecidableEq

/-- The Extrusion parameter slots of `self._data` (`extrude_height` is held
as a length-1 float array by the data store, modelled as an optional
scalar). -/
structure ExtrusionData where
  extrude_polygon : Option Polygon
  extrude_transform : Option NpVal
  extrude_height : Option ℚ
deriving DecidableEq

/-- `Extrusion.extrude_transform` (read): the stored array when
`np.shape(stored) == (4,4)`, otherwise `np.eye(4)`. -/
def extrudeTransformGet (d : ExtrusionData) : Mat4 :=
  match d.extrude_transform with
  | some (.mat m) => if shape44 m then decodeMat4 m else eye4
  | _ => eye4

/-- `Extrusion.extrude_transform` (write): raises unless the value is
`(4,4)`. -/
def extrudeTransformSet (d : ExtrusionData) (matrix : NpVal) :
    Except PyError ExtrusionData :=
  match matrix with
  | .mat m =>
    if shape44 m then .ok { d with extrude_transform := some (.mat m) }
    else .error (.valueError "Matrix must be (4,4)!")
  | .vec _ => .error (.valueError "Matrix must be (4,4)!")

/-- `Extrusion.extrude_height` (read): raises the "not specified"
`ValueError` when the slot is `None`, otherwise returns `stored.copy()[0]`. -/
def extrudeHeightGet (d : ExtrusionData) : Except PyError ℚ :=
  match d.extrude_height with
  | none => .error (.valueError "extrude height not specified!")
  | some stored => .ok stored

/-- `Extrusion.extrude_height` (write): `self._data['extrude_height'] =
float(value)`. -/
def extrudeHeightSet (d : ExtrusionData) (value : ℚ) : ExtrusionData :=
  { d with extrude_height := some value }

/-- `Extrusion.extrude_polygon` (read): raises the "not specified"
`ValueError` when the slot is `None`. -/
def extrudePolygonGet (d : ExtrusionData) : Except PyError Polygon :=
  match d.extrude_polygon with
  | none => .error (.valueError "extrude polygon not specified!")
  | some stored => .ok stored

/-- An `Extrusion` constructed with no keyword arguments: every slot of the
cleared data store reads back as `None`. -/
def extrusionEmpty : ExtrusionData := ⟨none, none, none⟩

/-- The `translation` matrix built by `slide`: `np.eye(4)` with entry
`[2,3]` set to `distance`. -/
def translateZ (distance : ℚ) : Mat4 :=
  fun i j => if i.val = 2 ∧ j.val = 3 then distance else eye4 i j

/-- `Extrusion.slide(distance)`: right-multiplies the current transform by
the pure Z translation, then stores the product through the setter. -/
def slide (d : ExtrusionData) (distance : ℚ) : Except PyError ExtrusionData :=
  let translation := translateZ distance
  let new_transform := mul4 (extrudeTransformGet d) translation
  extrudeTransformSet d (.mat (mat4ToLists new_transform))

/-- C7: reading `extrude_height` (or `extrude_polygon`) before the
parameter has been set fails with the "not specified" `ValueError` — the
spec's `MissingParameterError` — and after `extrude_height = 5.0` a read
returns `5.0`. -/
theorem extrusion_required_params (d : ExtrusionData) :
    extrudeHeightGet extrusionEmpty =
      .error (.valueError "extrude height not specified!") ∧
    extrudePolygonGet extrusionEmpty =
      .error (.valueError "extrude polygon not specified!") ∧
    extrudeHeightGet (extrudeHeightSet d 5) = .ok 5 ∧
    (∀ v, extrudeHeightGet (extrudeHeightSet d v) = .ok v) :=
  ⟨rfl, rfl, rfl, fun _ => rfl⟩

/-- C5: `slide` composes by right-multiplication — the stored transform
becomes `old · translate(0,0,distance)` — and from the identity transform,
`slide(3.0)` puts `(0,0,3)` in the translation column and a further
`slide(2.0)` gives `(0,0,5)`. -/
theorem slide_eq (d : ExtrusionData) (distance : ℚ) :
    slide d distance = .ok
      { d with extrude_transform := some (.mat (mat4ToLists
          (mul4 (extrudeTransformGet d) (translateZ distance)))) } := by
  rw [slide, extrudeTransformSet]
  simp [shape44_mat4ToLists]

/-- C5: `slide` composes by right-multiplication — the stored transform
becomes `old · translate(0,0,distance)` — and from the identity transform,
`slide(3.0)` puts `(0,0,3)` in the translation column and a further
`slide(2.0)` gives `(0,0,5)` (composition, not replacement). -/
theorem slide_composes (d : ExtrusionData) (distance : ℚ) :
    slide d distance = .ok
      { d with extrude_transform := some (.mat (mat4ToLists
          (mul4 (extrudeTransformGet d) (translateZ distance)))) } ∧
    (∀ d', slide d distance = .ok d' →
      extrudeTransformGet d' =
        mul4 (extrudeTransformGet d) (translateZ distance)) ∧
    slide extrusionEmpty 3 = .ok
      ⟨none, some (.mat [[1,0,0,0],[0,1,0,0],[0,0,1,3],[0,0,0,1]]), none⟩ ∧
    slide ⟨none, some (.mat [[1,0,0,0],[0,1,0,0],[0,0,1,3],[0,0,0,1]]), none⟩ 2 =
      .ok ⟨none, some (.mat [[1,0,0,0],[0,1,0,0],[0,0,1,5],[0,0,0,1]]), none⟩ := by
  refine ⟨slide_eq d distance, ?_, ?_, ?_⟩
  · intro d' hd'
    rw [slide_eq] at hd'
    cases hd'
    simp [extrudeTransformGet, shape44_mat4ToLists, decodeMat4_mat4ToLists]
  · rw [slide_eq]
    have h1 : extrudeTransformGet extrusionEmpty = eye4 := rfl
    rw [h1, mul4_eye4]
    simp +decide [extrusionEmpty, mat4ToLists, translateZ, eye4]
  · rw [slide_eq]
    have h3 : ((3 : Fin 4) : ℕ) = 3 := by decide
    simp +decide [extrudeTransformGet, shape44, decodeMat4, mat4ToLists, mul4,
      translateZ, eye4, List.getD, h3]
    norm_num

/-- Witness for C5: reading the transform after `slide(3.0)` from the
identity gives exactly `eye4 · translate(0,0,3)`. -/
theorem slide_composes_witness :
    extrudeTransformGet
        ⟨none, some (.mat [[1,0,0,0],[0,1,0,0],[0,0,1,3],[0,0,0,1]]), none⟩ =
      mul4 (extrudeTransformGet extrusionEmpty) (translateZ 3) :=
  (slide_composes extrusionEmpty 3).2.1 _ (slide_composes extrusionEmpty 3).2.2.1

/-- C10: reading `box_extents`, `box_transform` or `extrude_transform` when
the stored slot is absent or not of the required shape does not fail: the
getter silently substitutes the default (`np.ones(3)` or `np.eye(4)`) at
read time. -/
theorem getters_default_on_bad_shape (d : BoxData) (e : ExtrusionData) :
    (isShape3 d.box_extents = false → boxExtentsGet d = ones3) ∧
    (isShape44 d.box_transform = false → boxTransformGet d = eye4) ∧
    (isShape44 e.extrude_transform = false → extrudeTransformGet e = eye4) := by
  obtain ⟨ext, tr⟩ := d
  obtain ⟨pg, etr, ht⟩ := e
  refine ⟨?_, ?_, ?_⟩
  · intro h
    rcases ext with _ | (v | m)
    · rfl
    · simp only [isShape3, beq_eq_false_iff_ne, ne_eq] at h
      simp [boxExtentsGet, h]
    · rfl
  · intro h
    rcases tr with _ | (v | m)
    · rfl
    · rfl
    · simp only [isShape44] at h
      simp [boxTransformGet, h]
  · intro h
    rcases etr with _ | (v | m)
    · rfl
    · rfl
    · simp only [isShape44] at h
      simp [extrudeTransformGet, h]

/-- Witness for C10: a `(2,)` extents slot, an absent transform slot and a
`(1,)` extrude-transform slot all read back as the defaults. -/
theorem getters_default_on_bad_shape_witness :
    boxExtentsGet ⟨some (.vec [1, 2]), none⟩ = ones3 ∧
    boxTransformGet ⟨some (.vec [1, 2]), none⟩ = eye4 ∧
    extrudeTransformGet ⟨none, some (.vec [7]), none⟩ = eye4 :=
  ⟨(getters_default_on_bad_shape ⟨some (.vec [1, 2]), none⟩
      ⟨none, some (.vec [7]), none⟩).1 (by decide),
   (getters_default_on_bad_shape ⟨some (.vec [1, 2]), none⟩
      ⟨none, some (.vec [7]), none⟩).2.1 (by decide),
   (getters_default_on_bad_shape ⟨some (.vec [1, 2]), none⟩
      ⟨none, some (.vec [7]), none⟩).2.2 (by decide)⟩

/-! ## `Box._create_mesh` and the winding repair -/

/-- A face: one row of the integer `(n,3)` faces array. -/
abbrev Face := ℕ × ℕ × ℕ

/-- The zero vector, the out-of-range read default. -/
def zero3 : Vec3 := fun _ => 0

/-- Dot product of 3-vectors. -/
def dot3 (a b : Vec3) : ℚ := a 0 * b 0 + a 1 * b 1 + a 2 * b 2

/-- Build a `(3,)` array from its components. -/
def mkVec3 (x y z : ℚ) : Vec3 :=
  fun i => if i.val = 0 then x else if i.val = 1 then y else z

/-- Cross product of 3-vectors. -/
def cross3 (a b : Vec3) : Vec3 :=
  mkVec3 (a 1 * b 2 - a 2 * b 1) (a 2 * b 0 - a 0 * b 2) (a 0 * b 1 - a 1 * b 0)

/-- Modelled from the spec: `trimesh.triangles.windings_aligned` (the
`winding_consistency` collaborator) — whether the right-hand-rule normal
implied by the triangle's vertex winding matches the candidate normal, i.e.
their dot product is positive. -/
def windingsAligned (a b c n : Vec3) : Bool :=
  decide (0 < dot3 (cross3 (b - a) (c - a)) n)

/-- Modelled from the spec: `trimesh.points.transform_points` — apply a 4×4
affine transform to one 3D point (rotation block plus translation column). -/
def transformPoint (matrix : Mat4) (p : Vec3) : Vec3 :=
  fun i => matrix i.castSucc 0 * p 0 + matrix i.castSucc 1 * p 1 +
    matrix i.castSucc 2 * p 2 + matrix i.castSucc 3

/-- The transform's rotation block applied to one normal:
`np.dot(transform[0:3,0:3], normals.T).T` row-wise. -/
def rotateNormal (matrix : Mat4) (n : Vec3) : Vec3 :=
  fun i => matrix i.castSucc 0 * n 0 + matrix i.castSucc 1 * n 1 +
    matrix i.castSucc 2 * n 2

/-- `np.fliplr` applied to one row of the faces array: reverse the column
order of the index triple. -/
def flipFace : Face → Face
  | (a, b, c) => (c, b, a)

/-- The three derived arrays produced by a synthesis routine. -/
structure MeshData where
  vertices : List Vec3
  faces : List Face
  face_normals : List Vec3

/-- The single winding test `Box._create_mesh` performs:
`windings_aligned(vertices[faces[:1]], normals[:1])[0]` — the template's
first face, after scaling by the extents and transforming, against the first
transformed normal. -/
def boxFirstFaceAligned (unit_box : MeshData) (d : BoxData) : Bool :=
  let extents := boxExtentsGet d
  let transform := boxTransformGet d
  let vertices := unit_box.vertices.map
    (fun v => transformPoint transform (fun i => v i * extents i))
  let normals := unit_box.face_normals.map (rotateNormal transform)
  let f0 := unit_box.faces.headD (0, 0, 0)
  windingsAligned (vertices.getD f0.1 zero3) (vertices.getD f0.2.1 zero3)
    (vertices.getD f0.2.2 zero3) (normals.headD zero3)

/-- `Box._create_mesh`: scale the unit-box template by the extents, apply
the transform to the vertices and its rotation block to the normals, then
flip the column order of every face iff the first face's winding disagrees
with its transformed normal. -/
def boxCreateMesh (unit_box : MeshData) (d : BoxData) : MeshData :=
  let extents := boxExtentsGet d
  let transform := boxTransformGet d
  let vertices := unit_box.vertices.map
    (fun v => transformPoint transform (fun i => v i * extents i))
  let normals := unit_box.face_normals.map (rotateNormal transform)
  let f0 := unit_box.faces.headD (0, 0, 0)
  let aligned := windingsAligned (vertices.getD f0.1 zero3)
    (vertices.getD f0.2.1 zero3) (vertices.getD f0.2.2 zero3)
    (normals.headD zero3)
  let faces := if aligned then unit_box.faces else unit_box.faces.map flipFace
  ⟨vertices, faces, normals⟩

theorem getD_map_flipFace (l : List Face) (k : ℕ) :
    (l.map flipFace).getD k (0, 0, 0) = flipFace (l.getD k (0, 0, 0)) := by
  induction l generalizing k with
  | nil => cases k <;> rfl
  | cons x xs ih =>
    cases k with
    | zero => rfl
    | succ n => simpa [List.getD] using ih n

/-- C1: the box synthesis makes one global winding-repair decision.  The
faces it caches are the template faces unchanged when the first transformed
face agrees with its transformed normal, and every face's index triple with
its column order reversed when it does not; every face receives the same
treatment (same length, uniform per-index characterization), and the
decision tests only the first face. -/
theorem box_winding_repair (unit_box : MeshData) (d : BoxData) :
    (boxCreateMesh unit_box d).faces.length = unit_box.faces.length ∧
    (boxFirstFaceAligned unit_box d = true →
      (boxCreateMesh unit_box d).faces = unit_box.faces) ∧
    (boxFirstFaceAligned unit_box d = false →
      (boxCreateMesh unit_box d).faces = unit_box.faces.map flipFace) ∧
    (∀ k : ℕ, (boxCreateMesh unit_box d).faces.getD k (0, 0, 0) =
      if boxFirstFaceAligned unit_box d
      then unit_box.faces.getD k (0, 0, 0)
      else flipFace (unit_box.faces.getD k (0, 0, 0))) := by
  have hfaces : (boxCreateMesh unit_box d).faces =
      if boxFirstFaceAligned unit_box d then unit_box.faces
      else unit_box.faces.map flipFace := rfl
  refine ⟨?_, ?_, ?_, ?_⟩
  · rw [hfaces]
    split <;> simp
  · intro h
    rw [hfaces, h]
    rfl
  · intro h
    rw [hfaces, h]
    rfl
  · intro k
    rw [hfaces]
    split
    · rfl
    · exact getD_map_flipFace unit_box.faces k

/-- A one-triangle template used to exercise the winding repair concretely. -/
def triTemplate : MeshData :=
  ⟨[mkVec3 0 0 0, mkVec3 1 0 0, mkVec3 0 1 0], [(0, 1, 2)], [mkVec3 0 0 1]⟩

/-- Witness for C1: with the identity transform the triangle keeps its
winding; with a reflecting extents vector `(-1,1,1)` every face is flipped. -/
theorem box_winding_repair_witness :
    (boxCreateMesh triTemplate ⟨none, none⟩).faces = triTemplate.faces ∧
    (boxCreateMesh triTemplate ⟨some (.vec [-1, 1, 1]), none⟩).faces =
      triTemplate.faces.map flipFace :=
  ⟨(box_winding_repair triTemplate ⟨none, none⟩).2.1 (by
      simp +decide [boxFirstFaceAligned, triTemplate, boxExtentsGet,
        boxTransformGet, windingsAligned, dot3, cross3, mkVec3, transformPoint,
        rotateNormal, zero3, ones3, eye4, List.getD, decodeVec3]),
   (box_winding_repair triTemplate ⟨some (.vec [-1, 1, 1]), none⟩).2.2.1 (by
      simp +decide [boxFirstFaceAligned, triTemplate, boxExtentsGet,
        boxTransformGet, windingsAligned, dot3, cross3, mkVec3, transformPoint,
        rotateNormal, zero3, ones3, eye4, List.getD, decodeVec3])⟩

end Trimesh
